import Mathlib

/-!
Verification of the menu-compliance analysis engine
(`backend/services/menu_analysis_service.py`).

The Python source is shallowly embedded: pure functions become Lean
functions over `String` / `List Char` / `ℚ` / `Int`; the regular
expressions of the source are hand-compiled into executable matchers with
Python `re` semantics (prefix-anchored `match`, `$` matching at the end of
the string or before a single trailing newline, `.` excluding newline).
Character classes `\d` and `\s` are modelled over the ASCII repertoire that
the menu domain (Hebrew + ASCII) uses.  Whitespace-backtracking corner
cases of lazy groups (relevant only to rule names carrying pathological
whitespace runs) are not modelled; all concrete inputs evaluated below are
ordinary rule names where the matchers agree with `re`.
-/

/-- ASCII / Python whitespace characters (`\s` over the ASCII range). -/
def isPySpace (c : Char) : Bool :=
  c == ' ' || c == '\t' || c == '\n' || c == '\r' || c == '\x0b' || c == '\x0c'

/-- ASCII decimal digit (`\d` over the ASCII range). -/
def isDig (c : Char) : Bool := '0' ≤ c && c ≤ '9'

/-- Python `str.lower()`; only ASCII letters are affected by the strings of
this domain (Hebrew has no case). -/
def pyLower (s : String) : String := ⟨s.data.map Char.toLower⟩

/-- Does the pattern occur at the head of the list (`l` starts with `pat`)? -/
def leadsWith : List Char → List Char → Bool
  | [], _ => true
  | _ :: _, [] => false
  | p :: ps, c :: cs => p == c && leadsWith ps cs

/-- Does `pat` occur contiguously anywhere in `l` (Python `in` on strings)? -/
def hasSubL (pat : List Char) : List Char → Bool
  | [] => leadsWith pat []
  | c :: rest => leadsWith pat (c :: rest) || hasSubL pat rest

/-- Python `pat in s` for strings. -/
def hasSubStr (pat s : String) : Bool := hasSubL pat.data s.data

/-- Python `str.strip()` on the list of characters. -/
def pyStripL (l : List Char) : List Char :=
  ((l.dropWhile isPySpace).reverse.dropWhile isPySpace).reverse

/-- Python `str.strip()`. -/
def pyStrip (s : String) : String := ⟨pyStripL s.data⟩

/-- Python `s.replace(old, new)` (all non-overlapping occurrences, left to
right), with a structural fuel argument: every step consumes at least one
input character, so `fuel = length of the input` never runs out.  The
source only calls this with the non-empty literal `"מקסימום"`; an empty
`old` is treated as a no-op here. -/
def replaceAllFuel (old new : List Char) : Nat → List Char → List Char
  | _, [] => []
  | 0, l => l
  | fuel + 1, c :: rest =>
    if old ≠ [] ∧ leadsWith old (c :: rest) = true then
      new ++ replaceAllFuel old new fuel (rest.drop (old.length - 1))
    else
      c :: replaceAllFuel old new fuel rest

/-- Replace all occurrences, entry point. -/
def replaceAllL (old new l : List Char) : List Char :=
  replaceAllFuel old new l.length l

/-- Python `s.replace(old, new)`. -/
def pyReplace (s old new : String) : String := ⟨replaceAllL old.data new.data s.data⟩

/-- Length of the leading whitespace run. -/
def wsRun (l : List Char) : Nat := (l.takeWhile isPySpace).length

/-- Numeric value of a digit string. -/
def digitsVal (l : List Char) : Nat := l.foldl (fun a c => a * 10 + (c.toNat - 48)) 0

/-- Character of the Hebrew Unicode block U+0590..U+05FF
(the source's `_HEBREW_RE`). -/
def isHebrewChar (c : Char) : Bool := 0x0590 ≤ c.toNat && c.toNat ≤ 0x05FF

/-- Number of Hebrew-block characters in the string. -/
def hebrewCount (l : List Char) : Nat := (l.filter isHebrewChar).length

/-- Hebrew letter in the range `[א-ת]` of the skip pattern. -/
def isHebLetter (c : Char) : Bool := 'א' ≤ c && c ≤ 'ת'

/-- The `[./]` class of the date-like skip pattern. -/
def isDateSep (c : Char) : Bool := c == '.' || c == '/'

/-- Does the list start with a digit? -/
def headIsDig : List Char → Bool
  | [] => false
  | c :: _ => isDig c

/-- The date alternative `\d{1,2}[./]\d{1,2}[./]?\d{0,4}` of
`_SKIP_PATTERNS`, anchored at the start (`re.match`).  The trailing
`[./]?\d{0,4}` always matches the empty string, so the alternative fires
exactly when the string starts with one or two digits, a separator, and a
further digit. -/
def dateLikeAt : List Char → Bool
  | c0 :: c1 :: rest =>
    isDig c0 &&
      ((isDateSep c1 && headIsDig rest) ||
       (isDig c1 && match rest with
         | c2 :: rest2 => isDateSep c2 && headIsDig rest2
         | [] => false))
  | _ => false

/-- The weekday alternative `יום\s+[א-ת]` of `_SKIP_PATTERNS`, anchored at
the start. -/
def dayNameAt (l : List Char) : Bool :=
  leadsWith "יום".data l &&
    (let r := l.drop 3
     let w := wsRun r
     decide (1 ≤ w) && (match r.drop w with
       | c :: _ => isHebLetter c
       | [] => false))

/-- The `None` alternative of `_SKIP_PATTERNS`, anchored at the start. -/
def noneAt (l : List Char) : Bool := leadsWith "None".data l

/-- Strip a single trailing newline: the position where Python's `$`
matches besides the very end of the string. -/
def dollarCore (l : List Char) : List Char :=
  match l.getLast? with
  | some c => if c = '\n' then l.dropLast else l
  | none => l

/-- The digits-only alternative `\d+$` of `_SKIP_PATTERNS`: the string is a
non-empty digit run, up to an optional trailing newline. -/
def digitsOnlyDollar (l : List Char) : Bool :=
  let core := dollarCore l
  !core.isEmpty && core.all isDig

/-- The too-short alternative `.{0,2}$` of `_SKIP_PATTERNS`: at most two
non-newline characters, up to an optional trailing newline. -/
def shortDollar (l : List Char) : Bool :=
  let core := dollarCore l
  decide (core.length ≤ 2) && core.all (fun c => c ≠ '\n')

/-- Mirrors `_SKIP_PATTERNS.match(val)`: the five prefix-anchored alternatives. -/
def skipMatch (l : List Char) : Bool :=
  dateLikeAt l || dayNameAt l || noneAt l || digitsOnlyDollar l || shortDollar l

/-- Mirrors `_HEADER_KEYWORDS` of the source. -/
def headerKeywords : List String :=
  ["תפריט", "חודש", "שבוע", "תאריך", "הערות", "עמדת שף",
   "sheet", "page", "menu", "date", "week"]

/-- Mirrors `_is_dish_name` of the source, clause for clause.  The emptiness test
`not val` is subsumed by the length test. -/
def isDishName (val : String) : Bool :=
  if val.length < 3 || val.length > 80 then false
  else if !(val.data.any isHebrewChar) then false
  else if skipMatch val.data then false
  else if headerKeywords.any (fun kw => hasSubStr kw (pyLower val)) then false
  else if hebrewCount val.data < 2 then false
  else true

/-- Whole-string reading of the date alternative: the entire string is
`\d{1,2}[./]\d{1,2}` optionally followed by `[./]\d{0,4}`. -/
def wholeDate (l : List Char) : Bool :=
  let d1 := l.takeWhile isDig
  let r1 := l.drop d1.length
  (decide (1 ≤ d1.length) && decide (d1.length ≤ 2)) &&
    match r1 with
    | s1 :: r2 =>
      isDateSep s1 &&
        (let d2 := r2.takeWhile isDig
         let r3 := r2.drop d2.length
         (decide (1 ≤ d2.length) && decide (d2.length ≤ 2)) &&
           match r3 with
           | [] => true
           | s2 :: r4 => isDateSep s2 && r4.all isDig && decide (r4.length ≤ 4))
    | [] => false

/-- Whole-string reading of the weekday alternative: `יום`, whitespace, and
a non-empty run of Hebrew letters making up the day name. -/
def wholeWeekday (l : List Char) : Bool :=
  leadsWith "יום".data l &&
    (let r := l.drop 3
     let w := wsRun r
     decide (1 ≤ w) &&
       (let r2 := r.drop w
        !r2.isEmpty && r2.all isHebLetter))

/-- Modelled on the claim's wording: the skip patterns read as whole
tokens — the string *is* a date-like token, *is* a weekday-name token, *is*
the literal `None`, is digits-only, or has at most two characters. -/
def claimedSkip (l : List Char) : Bool :=
  wholeDate l || wholeWeekday l || decide (l = "None".data) ||
    (!l.isEmpty && l.all isDig) || decide (l.length ≤ 2)

/-- Modelled on the claim's wording for `_is_dish_name`: length between 3
and 80, at least two Hebrew-block characters, no whole-token skip pattern,
and no header keyword in the lowercased string. -/
def claimedDishName (val : String) : Bool :=
  decide (3 ≤ val.length) && decide (val.length ≤ 80) &&
    decide (2 ≤ hebrewCount val.data) &&
    !claimedSkip val.data &&
    !(headerKeywords.any (fun kw => hasSubStr kw (pyLower val)))

/-- Amendment of the claim: identical conditions except that the skip
patterns are anchored at the start of the string, as `re.match` applies
them (begins with a date-like token, begins with a weekday-name token,
begins with the literal `None`, is digits-only, or is at most two
characters — the last two up to an optional trailing newline). -/
def amendedDishName (val : String) : Bool :=
  decide (3 ≤ val.length) && decide (val.length ≤ 80) &&
    decide (2 ≤ hebrewCount val.data) &&
    !skipMatch val.data &&
    !(headerKeywords.any (fun kw => hasSubStr kw (pyLower val)))

/-- Exact rational arithmetic used in place of the source's floats: an
unnormalized fraction with a positive denominator.  All quantities the
engine computes (`total_days / 5`, frequencies, averages) are exactly
representable, where float and rational arithmetic agree. -/
structure Frac where
  num : Int
  den : Int
deriving DecidableEq

/-- Embed an integer. -/
def fofInt (n : Int) : Frac := ⟨n, 1⟩

/-- Build a fraction, keeping the denominator positive. -/
def mkFrac (n d : Int) : Frac := if d < 0 then ⟨-n, -d⟩ else ⟨n, d⟩

/-- Product of fractions. -/
def fmul (a b : Frac) : Frac := ⟨a.num * b.num, a.den * b.den⟩

/-- Quotient of fractions. -/
def fdivF (a b : Frac) : Frac := mkFrac (a.num * b.den) (a.den * b.num)

/-- Strict comparison (valid for positive denominators). -/
def fltF (a b : Frac) : Bool := a.num * b.den < b.num * a.den

/-- Non-strict comparison (valid for positive denominators). -/
def fleF (a b : Frac) : Bool := a.num * b.den ≤ b.num * a.den

/-- Maximum of two fractions (Python `max`). -/
def fmax (a b : Frac) : Frac := if fltF a b then b else a

/-- Python `round(q)`: round half to even (banker's rounding). -/
def pyRound (q : Frac) : Int :=
  let f := q.num.fdiv q.den
  let r2 := 2 * (q.num - f * q.den)
  if r2 < q.den then f
  else if q.den < r2 then f + 1
  else if f % 2 = 0 then f else f + 1

/-- Python `round(q, 1)`: round to one decimal digit, half to even. -/
def pyRound1 (q : Frac) : Frac := ⟨pyRound (fmul q (fofInt 10)), 10⟩

/-- Python `f"{q}"` for a one-decimal quantity such as `round(x, 1)`:
the integer part, a dot, and the tenths digit. -/
def qToDec1 (q : Frac) : String :=
  let k := pyRound (fmul q (fofInt 10))
  (if k < 0 then "-" else "") ++ toString (k.natAbs / 10) ++ "." ++ toString (k.natAbs % 10)

/-- Truthiness of an optional string parameter (`params.get(key)`):
present and non-empty. -/
def strTruthy (o : Option String) : Bool :=
  match o with
  | some s => !(s == "")
  | none => false

/-- Truthiness of an optional numeric parameter: present and non-zero. -/
def qTruthy (o : Option Frac) : Bool :=
  match o with
  | some q => !(q.num == 0)
  | none => false

/-- Lazy-group search for the patterns `^(.+?) ...rest...`: the shortest
non-empty newline-free prefix `A` of `l` such that `check` succeeds on the
remainder.  Mirrors the backtracking order of a lazy group under
`re.match`. -/
def lazySplit (check : List Char → Option α) : List Char → Option (List Char × α) :=
  go []
where
  go (accRev : List Char) : List Char → Option (List Char × α)
    | [] => none
    | c :: rest =>
      if c = '\n' then none
      else
        match check rest with
        | some v => some ((c :: accRev).reverse, v)
        | none => go (c :: accRev) rest

/-- Remainder check for `\s+(\d+(?:\.\d+)?)\s+פעמ`: whitespace, a decimal
number, whitespace, then the literal `פעמ`; returns the number. -/
def freqRest (l : List Char) : Option Frac :=
  let w := wsRun l
  if w = 0 then none
  else
    let l1 := l.drop w
    let ds := l1.takeWhile isDig
    if ds.isEmpty then none
    else
      let l2 := l1.drop ds.length
      match l2 with
      | '.' :: l3 =>
        let fs := l3.takeWhile isDig
        if fs.isEmpty then none
        else
          let l4 := l3.drop fs.length
          let w2 := wsRun l4
          if 1 ≤ w2 && leadsWith "פעמ".data (l4.drop w2) then
            some ⟨digitsVal ds * 10 ^ fs.length + digitsVal fs, (10 : Int) ^ fs.length⟩
          else none
      | _ =>
        let w2 := wsRun l2
        if 1 ≤ w2 && leadsWith "פעמ".data (l2.drop w2) then some (fofInt (digitsVal ds)) else none

/-- Remainder check for `\s+פעם\s+ב`: whitespace, the literal `פעם`,
whitespace, then the letter `ב`. -/
def onceRest (l : List Char) : Option Unit :=
  let w := wsRun l
  if 1 ≤ w && leadsWith "פעם".data (l.drop w) then
    let l2 := (l.drop w).drop 3
    let w2 := wsRun l2
    if 1 ≤ w2 && leadsWith "ב".data (l2.drop w2) then some () else none
  else none

/-- Mirrors `_extract_item_and_freq`: item keyword, frequency and max-direction
from a Hebrew rule name. -/
def extractItemAndFreq (name : String) : String × Frac × Bool :=
  let isMax := hasSubStr "מקסימום" name
  let clean := pyStrip (pyReplace name "מקסימום" "")
  match lazySplit freqRest clean.data with
  | some (a, q) => (pyStrip ⟨a⟩, q, isMax)
  | none =>
    match lazySplit onceRest clean.data with
    | some (a, _) => (pyStrip ⟨a⟩, fofInt 1, isMax)
    | none => (clean, fofInt 1, isMax)

/-- Does `$` match here: end of string or a single trailing newline. -/
def dollarOnly (l : List Char) : Bool := l.isEmpty || l == ['\n']

/-- Remainder check for `(?:\s+ביום)?$`: either the end of the string, or
whitespace and the literal `ביום` followed by the end. -/
def optBeyomRest (l : List Char) : Option Unit :=
  if dollarOnly l then some ()
  else
    let w := wsRun l
    if 1 ≤ w && leadsWith "ביום".data (l.drop w) && dollarOnly ((l.drop w).drop 4) then some ()
    else none

/-- After a literal: whitespace then a digit run; returns the number and
the remainder. -/
def numAfterWs (l : List Char) : Option (Nat × List Char) :=
  let w := wsRun l
  if w = 0 then none
  else
    let l1 := l.drop w
    let ds := l1.takeWhile isDig
    if ds.isEmpty then none else some (digitsVal ds, l1.drop ds.length)

/-- After the number: whitespace then a given literal; returns the
remainder. -/
def litAfterWs (lit : List Char) (l : List Char) : Option (List Char) :=
  let w := wsRun l
  if 1 ≤ w && leadsWith lit (l.drop w) then some ((l.drop w).drop lit.length) else none

/-- Mirrors `^מינימום\s+(\d+)\s+סוגי\s+(.+?)(?:\s+ביום)?$` and its `מקסימום…מנות`
twin: header word, count, unit word, then the lazy category group. -/
def countPattern (head unit : String) (name : String) : Option (Nat × String) :=
  let l := name.data
  if leadsWith head.data l then
    match numAfterWs (l.drop head.data.length) with
    | some (n, l2) =>
      match litAfterWs unit.data l2 with
      | some l3 =>
        let w := wsRun l3
        if w = 0 then none
        else
          match lazySplit optBeyomRest (l3.drop w) with
          | some (a, _) => some (n, pyStrip ⟨a⟩)
          | none => none
      | none => none
    | none => none
  else none

/-- The loose fallback `^מינימום\s+(\d+)\s+(.+)`: greedy group up to the
first newline. -/
def countLoose (name : String) : Option (Nat × String) :=
  let l := name.data
  if leadsWith "מינימום".data l then
    match numAfterWs (l.drop "מינימום".data.length) with
    | some (n, l2) =>
      let w := wsRun l2
      if w = 0 then none
      else
        let g := (l2.drop w).takeWhile (fun c => c ≠ '\n')
        if g.isEmpty then none else some (n, pyStrip ⟨g⟩)
    | none => none
  else none

/-- Mirrors `_extract_daily_count`: count and category/item keyword from
`count_min` / `count_max` rule names. -/
def extractDailyCount (name : String) : Nat × String :=
  match countPattern "מינימום" "סוגי" name with
  | some p => p
  | none =>
    match countPattern "מקסימום" "מנות" name with
    | some p => p
    | none =>
      match countLoose name with
      | some p => p
      | none => (1, name)

/-- The daily-suffix alternatives of `_extract_item_present_keyword`. -/
def dailySuffixes : List String := ["יומי", "יומית", "יומיים", "יומיות"]

/-- Trailing run of whitespace characters. -/
def trailingWs (l : List Char) : Nat := wsRun l.reverse

/-- Remove `\s+(יומי|יומית|יומיים|יומיות)$` from the end of the name (the
`$` also matches before a single trailing newline, which the final strip
removes anyway). -/
def stripDailySuffix (l : List Char) : List Char :=
  let core := dollarCore l
  match dailySuffixes.find? (fun suf => suf.data.isSuffixOf core) with
  | some suf =>
    let core2 := core.take (core.length - suf.data.length)
    let w := trailingWs core2
    if 1 ≤ w then core2.take (core2.length - w) else l
  | none => l

/-- The category-noun prefixes removed by `_extract_item_present_keyword`. -/
def presentPres : List String := ["סלט ", "מנת ", "מנה "]

/-- Mirrors `_extract_item_present_keyword`: strip a daily suffix, one leading
category noun, and keep the first slash-alternative. -/
def extractItemPresentKeyword (name : String) : String :=
  let clean := pyStripL (stripDailySuffix name.data)
  let clean2 :=
    match presentPres.find? (fun p => leadsWith p.data clean) with
    | some p => clean.drop p.data.length
    | none => clean
  if clean2.contains '/' then pyStrip ⟨clean2.takeWhile (fun c => c ≠ '/')⟩
  else ⟨clean2⟩

/-- One parsed menu day `{date, day_of_week, items}`; the category map is
carried as an association list of category → dish list. -/
structure MenuDayData where
  date : String
  dayOfWeek : String
  items : List (String × List String)
deriving DecidableEq

/-- The structured parameter overrides of a `ComplianceRule` (the open
`parameters` bag of the source, restricted to the keys the engine reads);
`none` models both an absent key and a `None`/`{}` parameters field. -/
structure RuleParams where
  item : Option String := none
  minPerWeek : Option Frac := none
  maxPerWeek : Option Frac := none
  minPerMonth : Option Frac := none
  maxPerMonth : Option Frac := none
  requiredCategory : Option String := none
  requiredItem : Option String := none
deriving DecidableEq

/-- A compliance rule as the engine reads it. -/
structure ComplianceRuleData where
  id : Option Int := none
  name : String
  ruleType : String
  category : String
  priority : Int
  params : RuleParams
deriving DecidableEq

/-- The evidence bag of a result; the source builds a dict whose keys vary
per branch, modelled here as optional fields (with the three counters that
every branch fills). -/
structure Evidence where
  daysChecked : Option Int := none
  itemSearched : Option String := none
  categoryKeyword : Option String := none
  expectedCount : Int := 0
  actualCount : Int := 0
  comparison : String := ""
  weeklyFreq : Option Frac := none
  monthlyFreq : Option Frac := none
  isMaxRule : Option Bool := none
  foundOnDays : Option (List String) := none
  missingOnDays : Option (List String) := none
  maxDailyFound : Option Int := none
  avgDaily : Option Frac := none
  minRequired : Option Int := none
  missingDays : Option (List String) := none
  note : Option String := none
deriving DecidableEq

/-- One per-rule check result. -/
structure CheckResultData where
  ruleName : String
  ruleCategory : String
  severity : String
  ruleId : Option Int := none
  passed : Bool
  findingText : Option String
  evidence : Evidence
deriving DecidableEq

/-- The per-day view `daily_categories` that `_evaluate_rules` builds:
date, weekday, category keys, and the flattened (category, item) pairs. -/
structure DailyCat where
  date : String
  dayOfWeek : String
  categories : List String
  items : List (String × String)
deriving DecidableEq

/-- Concatenating map over a list (`itertools`-style flattening used in
place of Python's nested comprehensions). -/
def cmap (f : α → List β) : List α → List β
  | [] => []
  | a :: rest => f a ++ cmap f rest

/-- Sum of a list of naturals. -/
def natSum : List Nat → Nat
  | [] => 0
  | n :: rest => n + natSum rest

/-- Mirrors `collections.Counter` over a list of strings: association list of
distinct keys with multiplicities, in first-occurrence order. -/
def bump (k : String) : List (String × Nat) → List (String × Nat)
  | [] => [(k, 1)]
  | (k2, v) :: rest => if k2 = k then (k2, v + 1) :: rest else (k2, v) :: bump k rest

/-- Build the counter of a list of strings. -/
def counterOf (l : List String) : List (String × Nat) := l.foldl (fun acc k => bump k acc) []

/-- Mirrors `_derive_comparison`. -/
def deriveComparison (actual expected : Int) : String :=
  if actual > expected then "above"
  else if actual < expected then "under"
  else "even"

/-- Mirrors `_count_item_occurrences`: total multiplicity of counter keys
containing the lowercased keyword. -/
def countItemOccurrences (itemKeyword : String) (itemCounter : List (String × Nat)) : Nat :=
  (itemCounter.filter (fun kv => hasSubStr (pyLower itemKeyword) kv.1)).foldl
    (fun a kv => a + kv.2) 0

/-- Does the item keyword appear in some item of the day? -/
def dayHasItem (itemKeyword : String) (dc : DailyCat) : Bool :=
  dc.items.any (fun ci => hasSubStr (pyLower itemKeyword) (pyLower ci.2))

/-- Mirrors `_count_daily_item_presence`. -/
def countDailyItemPresence (itemKeyword : String) (dailyCategories : List DailyCat) : Nat :=
  (dailyCategories.filter (dayHasItem itemKeyword)).length

/-- Mirrors `_find_item_days`. -/
def findItemDays (itemKeyword : String) (dailyCategories : List DailyCat) : List String :=
  (dailyCategories.filter (dayHasItem itemKeyword)).map (fun dc => dc.date)

/-- Mirrors `_find_missing_days`. -/
def findMissingDays (itemKeyword : String) (dailyCategories : List DailyCat) : List String :=
  (dailyCategories.filter (fun dc => !dayHasItem itemKeyword dc)).map (fun dc => dc.date)

/-- Mirrors `rule.rule_type or "mandatory"`. -/
def ruleTypeOf (rule : ComplianceRuleData) : String :=
  if rule.ruleType = "" then "mandatory" else rule.ruleType

/-- Severity from priority: `"critical" if rule.priority <= 1 else "warning"`. -/
def sevOf (rule : ComplianceRuleData) : String :=
  if rule.priority ≤ 1 then "critical" else "warning"

/-- Mirrors `weeks_in_month = max(total_days / 5, 1)`. -/
def weeksInMonth (totalDays : Nat) : Frac := fmax (mkFrac totalDays 5) (fofInt 1)

/-- The zero-days result every rule gets when there are no parsed days. -/
def zeroDaysResult (rule : ComplianceRuleData) : CheckResultData :=
  { ruleName := rule.name, ruleCategory := rule.category, severity := sevOf rule,
    ruleId := rule.id, passed := false,
    findingText := some "No menu days found to check against this rule.",
    evidence := { daysChecked := some 0, expectedCount := 0, actualCount := 0,
                  comparison := "even" } }

/-- The `item_frequency_weekly` branch. -/
def ifwBranch (rule : ComplianceRuleData) (dailyCats : List DailyCat)
    (itemCounter : List (String × Nat)) (totalDays : Nat) : CheckResultData :=
  let e := extractItemAndFreq rule.name
  let ik := if strTruthy rule.params.item then rule.params.item.getD "" else e.1
  let fm : Frac × Bool :=
    if qTruthy rule.params.minPerWeek then (rule.params.minPerWeek.getD (fofInt 0), false)
    else (e.2.1, e.2.2)
  let fm2 : Frac × Bool :=
    if qTruthy rule.params.maxPerWeek then (rule.params.maxPerWeek.getD (fofInt 0), true)
    else fm
  let actual : Int := countItemOccurrences ik itemCounter
  let expected : Int := pyRound (fmul fm2.1 (weeksInMonth totalDays))
  let passed := if fm2.2 then actual ≤ expected else actual ≥ expected
  { ruleName := rule.name, ruleCategory := rule.category, severity := sevOf rule,
    ruleId := rule.id, passed := passed,
    findingText := some ("'" ++ ik ++ "': Expected " ++ (if fm2.2 then "≤" else "≥") ++
      toString expected ++ ", Actual " ++ toString actual),
    evidence := { itemSearched := some ik, expectedCount := expected, actualCount := actual,
                  comparison := deriveComparison actual expected,
                  weeklyFreq := some fm2.1, isMaxRule := some fm2.2,
                  foundOnDays := some (findItemDays ik dailyCats) } }

/-- The `item_frequency_monthly` branch. -/
def ifmBranch (rule : ComplianceRuleData) (dailyCats : List DailyCat)
    (itemCounter : List (String × Nat)) : CheckResultData :=
  let e := extractItemAndFreq rule.name
  let ik := if strTruthy rule.params.item then rule.params.item.getD "" else e.1
  let fm : Frac × Bool :=
    if qTruthy rule.params.minPerMonth then (rule.params.minPerMonth.getD (fofInt 0), false)
    else (e.2.1, e.2.2)
  let fm2 : Frac × Bool :=
    if qTruthy rule.params.maxPerMonth then (rule.params.maxPerMonth.getD (fofInt 0), true)
    else fm
  let actual : Int := countItemOccurrences ik itemCounter
  let expected : Int := pyRound fm2.1
  let passed := if fm2.2 then actual ≤ expected else actual ≥ expected
  { ruleName := rule.name, ruleCategory := rule.category, severity := sevOf rule,
    ruleId := rule.id, passed := passed,
    findingText := some ("'" ++ ik ++ "': Expected " ++ (if fm2.2 then "≤" else "≥") ++
      toString expected ++ "/month, Actual " ++ toString actual),
    evidence := { itemSearched := some ik, expectedCount := expected, actualCount := actual,
                  comparison := deriveComparison actual expected,
                  monthlyFreq := some fm2.1, isMaxRule := some fm2.2,
                  foundOnDays := some (findItemDays ik dailyCats) } }

/-- Per-day count of items matching the category keyword (or a whole
matching category) for the `count_min` variety branch. -/
def countMinDayCount (catKeyword : String) (dc : DailyCat) : Nat :=
  (dc.items.filter (fun ci =>
    hasSubStr (pyLower catKeyword) (pyLower ci.2) ||
      dc.categories.any (fun c => hasSubStr (pyLower catKeyword) (pyLower c)))).length

/-- Per-day count of items containing the item keyword for the `count_max`
branch. -/
def countMaxDayCount (itemKeyword : String) (dc : DailyCat) : Nat :=
  (dc.items.filter (fun ci => hasSubStr (pyLower itemKeyword) (pyLower ci.2))).length

/-- The `count_min` branch with the `מינימום` pattern: daily variety
averaged over the days. -/
def countMinVarietyBranch (rule : ComplianceRuleData) (dailyCats : List DailyCat) :
    CheckResultData :=
  let p := extractDailyCount rule.name
  let dailyCounts := dailyCats.map (countMinDayCount p.2)
  let metDays := (dailyCats.filter (fun dc => p.1 ≤ countMinDayCount p.2 dc)).map
    (fun dc => dc.date)
  let unmetDays := (dailyCats.filter (fun dc => countMinDayCount p.2 dc < p.1)).map
    (fun dc => dc.date)
  let avgDaily : Frac := pyRound1 (mkFrac (natSum dailyCounts) (max dailyCounts.length 1))
  let expected : Int := p.1
  let actual : Int := pyRound avgDaily
  let passed := fleF (fofInt p.1) avgDaily
  { ruleName := rule.name, ruleCategory := rule.category, severity := sevOf rule,
    ruleId := rule.id, passed := passed,
    findingText := some ("'" ++ p.2 ++ "': Min " ++ toString p.1 ++ "/day, Avg " ++
      qToDec1 avgDaily ++ "/day"),
    evidence := { categoryKeyword := some p.2, expectedCount := expected,
                  actualCount := actual, comparison := deriveComparison actual expected,
                  avgDaily := some avgDaily, minRequired := some (p.1 : Int),
                  foundOnDays := some metDays, missingOnDays := some (unmetDays.take 10) } }

/-- The daily-presence result shared by the `count_min` fallback and the
`item_present` branch. -/
def presenceResult (rule : ComplianceRuleData) (ik : String) (dailyCats : List DailyCat)
    (totalDays : Nat) : CheckResultData :=
  let actual : Int := countDailyItemPresence ik dailyCats
  let expected : Int := totalDays
  let passed := decide (actual ≥ expected)
  { ruleName := rule.name, ruleCategory := rule.category, severity := sevOf rule,
    ruleId := rule.id, passed := passed,
    findingText := some ("'" ++ ik ++ "': Present " ++ toString actual ++ "/" ++
      toString totalDays ++ " days"),
    evidence := { itemSearched := some ik, expectedCount := expected, actualCount := actual,
                  comparison := deriveComparison actual expected,
                  foundOnDays := some (findItemDays ik dailyCats),
                  missingOnDays := some ((findMissingDays ik dailyCats).take 10) } }

/-- The `count_min` branch: variety check when the name starts with
`מינימום`, daily-presence check otherwise. -/
def countMinBranch (rule : ComplianceRuleData) (dailyCats : List DailyCat)
    (totalDays : Nat) : CheckResultData :=
  if leadsWith "מינימום".data rule.name.data then
    countMinVarietyBranch rule dailyCats
  else
    let ik0 := extractItemPresentKeyword rule.name
    let ik := if strTruthy rule.params.item then rule.params.item.getD "" else ik0
    presenceResult rule ik dailyCats totalDays

/-- The `count_max` branch: peak and average of the per-day item counts. -/
def countMaxBranch (rule : ComplianceRuleData) (dailyCats : List DailyCat) :
    CheckResultData :=
  let p := extractDailyCount rule.name
  let ik := if strTruthy rule.params.item then rule.params.item.getD "" else p.2
  let dailyCounts := dailyCats.map (countMaxDayCount ik)
  let exceededDays := (dailyCats.filter (fun dc => p.1 < countMaxDayCount ik dc)).map
    (fun dc => dc.date)
  let maxFound := dailyCounts.foldl max 0
  let avgDaily : Frac := pyRound1 (mkFrac (natSum dailyCounts) (max dailyCounts.length 1))
  let expected : Int := p.1
  let actual : Int := pyRound avgDaily
  let passed := decide (maxFound ≤ p.1)
  { ruleName := rule.name, ruleCategory := rule.category, severity := sevOf rule,
    ruleId := rule.id, passed := passed,
    findingText := some ("'" ++ ik ++ "': Max " ++ toString p.1 ++ "/day, Peak " ++
      toString maxFound ++ "/day, Avg " ++ qToDec1 avgDaily ++ "/day"),
    evidence := { itemSearched := some ik, expectedCount := expected, actualCount := actual,
                  comparison := deriveComparison actual expected,
                  maxDailyFound := some (maxFound : Int), avgDaily := some avgDaily,
                  foundOnDays := some exceededDays } }

/-- The `item_present` branch. -/
def itemPresentBranch (rule : ComplianceRuleData) (dailyCats : List DailyCat)
    (totalDays : Nat) : CheckResultData :=
  let ik0 := extractItemPresentKeyword rule.name
  let ik := if strTruthy rule.params.item then rule.params.item.getD "" else ik0
  presenceResult rule ik dailyCats totalDays

/-- Gregorian leap year. -/
def isLeapYear (y : Nat) : Bool := (y % 4 = 0 && y % 100 ≠ 0) || y % 400 = 0

/-- Days in a month of the proleptic Gregorian calendar. -/
def monthLen (y m : Nat) : Nat :=
  if m = 2 then (if isLeapYear y then 29 else 28)
  else if m = 4 ∨ m = 6 ∨ m = 9 ∨ m = 11 then 30
  else 31

/-- Days before the first of month `m` within year `y`. -/
def daysBeforeMonth (y m : Nat) : Nat :=
  [0, 31, 59, 90, 120, 151, 181, 212, 243, 273, 304, 334].getD (m - 1) 0 +
    (if 3 ≤ m ∧ isLeapYear y then 1 else 0)

/-- Ordinal day number with `0001-01-01 = 1` (proleptic Gregorian, as
Python's `date.toordinal`). -/
def dayNumber (y m d : Nat) : Nat :=
  365 * (y - 1) + (y - 1) / 4 + (y - 1) / 400 - (y - 1) / 100 + daysBeforeMonth y m + d

/-- Python `date.weekday()`: Monday = 0 … Sunday = 6.  Day 1
(`0001-01-01`) is a Monday. -/
def weekdayOf (y m d : Nat) : Nat := (dayNumber y m d + 6) % 7

/-- Day of the year, 1-based. -/
def dayOfYear (y m d : Nat) : Nat := daysBeforeMonth y m + d

/-- Number of ISO weeks in a year: 53 when 1 January is a Thursday, or a
Wednesday of a leap year; 52 otherwise. -/
def isoWeeksInYear (y : Nat) : Nat :=
  if weekdayOf y 1 1 = 3 ∨ (isLeapYear y ∧ weekdayOf y 1 1 = 2) then 53 else 52

/-- ISO 8601 week number of a date (`date.isocalendar()[1]`). -/
def isoWeekNum (y m d : Nat) : Nat :=
  let w := (10 + dayOfYear y m d - (weekdayOf y m d + 1)) / 7
  if w = 0 then isoWeeksInYear (y - 1)
  else if isoWeeksInYear y < w then 1
  else w

/-- Parse a canonical `YYYY-MM-DD` string into a valid Gregorian date, as
`date.fromisoformat` accepts; anything else is rejected. -/
def parseIsoDate (s : String) : Option (Nat × Nat × Nat) :=
  match s.data with
  | [y1, y2, y3, y4, h1, m1, m2, h2, d1, d2] =>
    if [y1, y2, y3, y4, m1, m2, d1, d2].all isDig ∧ h1 = '-' ∧ h2 = '-' then
      let y := digitsVal [y1, y2, y3, y4]
      let m := digitsVal [m1, m2]
      let d := digitsVal [d1, d2]
      if 1 ≤ y ∧ 1 ≤ m ∧ m ≤ 12 ∧ 1 ≤ d ∧ d ≤ monthLen y m then some (y, m, d) else none
    else none
  | _ => none

/-- Count of repeats within one bucket of items: per repeated dish,
occurrences minus one (`sum(v - 1 for v in counter.values() if v > 1)`). -/
def repeatCount (items : List String) : Nat :=
  ((counterOf items).filter (fun kv => 1 < kv.2)).foldl (fun a kv => a + (kv.2 - 1)) 0

/-- Append the items of a day to its ISO-week bucket, keeping bucket
insertion order (the `weeks` dict of the source). -/
def addToWeek (wk : Nat) (items : List String) : List (Nat × List String) →
    List (Nat × List String)
  | [] => [(wk, items)]
  | (w, l) :: rest =>
    if w = wk then (w, l ++ items) :: rest else (w, l) :: addToWeek wk items rest

/-- Bucket every day's lowercased items by ISO week number; days whose date
string does not parse are skipped, as the source's `except` does. -/
def weekBuckets : List DailyCat → List (Nat × List String)
  | [] => []
  | dc :: rest =>
    match parseIsoDate dc.date with
    | some ymd =>
      addToWeek (isoWeekNum ymd.1 ymd.2.1 ymd.2.2)
        (dc.items.map (fun ci => pyLower ci.2)) (weekBuckets rest)
    | none => weekBuckets rest

/-- A zero-expected repeats-style result (`no_repeat_weekly`,
`no_repeat_daily`, `no_consecutive`). -/
def repeatsResult (rule : ComplianceRuleData) (repeats : Nat) (posText zeroText : String) :
    CheckResultData :=
  let expected : Int := 0
  let actual : Int := repeats
  { ruleName := rule.name, ruleCategory := rule.category, severity := sevOf rule,
    ruleId := rule.id, passed := decide (repeats = 0),
    findingText := some (if 0 < repeats then posText ++ toString repeats else zeroText),
    evidence := { expectedCount := expected, actualCount := actual,
                  comparison := deriveComparison actual expected } }

/-- The `no_repeat_weekly` branch. -/
def noRepeatWeeklyBranch (rule : ComplianceRuleData) (dailyCats : List DailyCat) :
    CheckResultData :=
  let repeats := natSum ((weekBuckets dailyCats).map (fun b => repeatCount b.2))
  repeatsResult rule repeats "Weekly repeats found: " "No weekly repeats"

/-- The `no_repeat_daily` branch. -/
def noRepeatDailyBranch (rule : ComplianceRuleData) (dailyCats : List DailyCat) :
    CheckResultData :=
  let repeats := natSum (dailyCats.map (fun dc =>
    repeatCount (dc.items.map (fun ci => pyLower ci.2))))
  repeatsResult rule repeats "Daily repeats found: " "No daily repeats"

/-- Fold of the `no_consecutive` loop: running overlap count and the
previous day's (deduplicated) item set. -/
def consecFold : List DailyCat → Nat × List String → Nat × List String
  | [], acc => acc
  | dc :: rest, (n, prev) =>
    let current := (dc.items.map (fun ci => pyLower ci.2)).dedup
    consecFold rest (n + (current.filter (fun x => prev.contains x)).length, current)

/-- The `no_consecutive` branch. -/
def noConsecutiveBranch (rule : ComplianceRuleData) (dailyCats : List DailyCat) :
    CheckResultData :=
  let repeats := (consecFold dailyCats (0, [])).1
  repeatsResult rule repeats "Consecutive-day repeats: " "No consecutive repeats"

/-- The legacy `frequency` branch (explicit min/max-per-week parameters).
`expected` uses `is not None` on the parameters while the pass checks use
truthiness, exactly as the source does. -/
def frequencyBranch (rule : ComplianceRuleData) (itemCounter : List (String × Nat))
    (totalDays : Nat) : CheckResultData :=
  let maxPW := rule.params.maxPerWeek
  let minPW := rule.params.minPerWeek
  let target := pyLower (rule.params.item.getD "")
  if target = "" then
    { ruleName := rule.name, ruleCategory := rule.category, severity := sevOf rule,
      ruleId := rule.id, passed := true, findingText := none,
      evidence := { expectedCount := 0, actualCount := 0, comparison := "even" } }
  else
    let actual : Int := countItemOccurrences target itemCounter
    let weeklyAvg : Frac := fdivF (fofInt actual) (weeksInMonth totalDays)
    let expected : Int :=
      match minPW with
      | some q => pyRound (fmul q (weeksInMonth totalDays))
      | none =>
        match maxPW with
        | some q => pyRound (fmul q (weeksInMonth totalDays))
        | none => 0
    let comparison := deriveComparison actual expected
    if qTruthy maxPW ∧ fltF (maxPW.getD (fofInt 0)) weeklyAvg then
      { ruleName := rule.name, ruleCategory := rule.category, severity := sevOf rule,
        ruleId := rule.id, passed := false,
        findingText := some ("'" ++ target ++ "': ~" ++ qToDec1 weeklyAvg ++ "/week (max " ++
          toString (maxPW.getD (fofInt 0)).num ++ "). Expected ≤" ++ toString expected ++
          ", Actual " ++ toString actual),
        evidence := { expectedCount := expected, actualCount := actual,
                      comparison := comparison } }
    else if qTruthy minPW ∧ fltF weeklyAvg (minPW.getD (fofInt 0)) then
      { ruleName := rule.name, ruleCategory := rule.category, severity := sevOf rule,
        ruleId := rule.id, passed := false,
        findingText := some ("'" ++ target ++ "': ~" ++ qToDec1 weeklyAvg ++ "/week (min " ++
          toString (minPW.getD (fofInt 0)).num ++ "). Expected ≥" ++ toString expected ++
          ", Actual " ++ toString actual),
        evidence := { expectedCount := expected, actualCount := actual,
                      comparison := comparison } }
    else
      { ruleName := rule.name, ruleCategory := rule.category, severity := sevOf rule,
        ruleId := rule.id, passed := true,
        findingText := some ("Expected: " ++ toString expected ++ ", Actual: " ++
          toString actual),
        evidence := { expectedCount := expected, actualCount := actual,
                      comparison := comparison } }

/-- Mirrors `params.get("required_category", "").lower()`. -/
def mandReqCat (rule : ComplianceRuleData) : String :=
  pyLower (rule.params.requiredCategory.getD "")

/-- Mirrors `params.get("required_item", "").lower()`. -/
def mandReqItem (rule : ComplianceRuleData) : String :=
  pyLower (rule.params.requiredItem.getD "")

/-- The legacy `mandatory` branch with a required category. -/
def mandatoryCatBranch (rule : ComplianceRuleData) (dailyCats : List DailyCat)
    (totalDays : Nat) : CheckResultData :=
  let reqCat := mandReqCat rule
  let missingDays := (dailyCats.filter (fun dc =>
    !(dc.categories.any (fun c => hasSubStr reqCat (pyLower c))))).map (fun dc => dc.date)
  let expected : Int := totalDays
  let actual : Int := (totalDays : Int) - missingDays.length
  let comparison := deriveComparison actual expected
  if !missingDays.isEmpty then
    { ruleName := rule.name, ruleCategory := rule.category, severity := sevOf rule,
      ruleId := rule.id, passed := false,
      findingText := some ("Category '" ++ reqCat ++ "' missing on " ++
        toString missingDays.length ++ "/" ++ toString totalDays ++ " days"),
      evidence := { expectedCount := expected, actualCount := actual,
                    comparison := comparison, missingDays := some (missingDays.take 5) } }
  else
    { ruleName := rule.name, ruleCategory := rule.category, severity := sevOf rule,
      ruleId := rule.id, passed := true,
      findingText := some ("Present all " ++ toString totalDays ++ " days"),
      evidence := { expectedCount := expected, actualCount := actual,
                    comparison := comparison } }

/-- The legacy `mandatory` branch with a required item. -/
def mandatoryItemBranch (rule : ComplianceRuleData) (dailyCats : List DailyCat)
    (totalDays : Nat) : CheckResultData :=
  let reqItem := mandReqItem rule
  let actual : Int := countDailyItemPresence reqItem dailyCats
  let expected : Int := totalDays
  let comparison := deriveComparison actual expected
  if actual = 0 then
    { ruleName := rule.name, ruleCategory := rule.category, severity := sevOf rule,
      ruleId := rule.id, passed := false,
      findingText := some ("Required item '" ++ reqItem ++ "' not found in any day"),
      evidence := { expectedCount := expected, actualCount := 0,
                    comparison := comparison } }
  else
    { ruleName := rule.name, ruleCategory := rule.category, severity := sevOf rule,
      ruleId := rule.id, passed := true,
      findingText := some ("Found on " ++ toString actual ++ "/" ++ toString totalDays ++
        " days"),
      evidence := { expectedCount := expected, actualCount := actual,
                    comparison := comparison } }

/-- The fallback for unknown rule types: treat the name as an item
frequency when it parses, otherwise report the rule as not evaluable. -/
def unknownBranch (rule : ComplianceRuleData) (itemCounter : List (String × Nat)) :
    CheckResultData :=
  let e := extractItemAndFreq rule.name
  if fltF (fofInt 0) e.2.1 = true ∧ e.1 ≠ "" then
    let actual : Int := countItemOccurrences e.1 itemCounter
    let expected : Int := pyRound e.2.1
    let passed := if e.2.2 then actual ≤ expected else actual ≥ expected
    { ruleName := rule.name, ruleCategory := rule.category, severity := sevOf rule,
      ruleId := rule.id, passed := passed,
      findingText := some ("'" ++ e.1 ++ "': Expected " ++ toString expected ++
        ", Actual " ++ toString actual),
      evidence := { itemSearched := some e.1, expectedCount := expected,
                    actualCount := actual,
                    comparison := deriveComparison actual expected } }
  else
    { ruleName := rule.name, ruleCategory := rule.category, severity := sevOf rule,
      ruleId := rule.id, passed := true, findingText := none,
      evidence := { note := some "Rule type not evaluable", expectedCount := 0,
                    actualCount := 0, comparison := "even" } }

/-- Mirrors `_check_single_rule`: the full dispatch over the eleven rule kinds.
The `mandatory` block of the source falls through to the unknown-type
fallback when neither required parameter is set, which the guard on the
`mandatory` arm reproduces. -/
def checkSingleRule (rule : ComplianceRuleData) (dailyCats : List DailyCat)
    (itemCounter : List (String × Nat)) (totalDays : Nat) : CheckResultData :=
  if totalDays = 0 then zeroDaysResult rule
  else if ruleTypeOf rule = "item_frequency_weekly" then
    ifwBranch rule dailyCats itemCounter totalDays
  else if ruleTypeOf rule = "item_frequency_monthly" then
    ifmBranch rule dailyCats itemCounter
  else if ruleTypeOf rule = "count_min" then countMinBranch rule dailyCats totalDays
  else if ruleTypeOf rule = "count_max" then countMaxBranch rule dailyCats
  else if ruleTypeOf rule = "item_present" then itemPresentBranch rule dailyCats totalDays
  else if ruleTypeOf rule = "no_repeat_weekly" then noRepeatWeeklyBranch rule dailyCats
  else if ruleTypeOf rule = "no_repeat_daily" then noRepeatDailyBranch rule dailyCats
  else if ruleTypeOf rule = "no_consecutive" then noConsecutiveBranch rule dailyCats
  else if ruleTypeOf rule = "frequency" then frequencyBranch rule itemCounter totalDays
  else if ruleTypeOf rule = "mandatory" ∧ mandReqCat rule ≠ "" then
    mandatoryCatBranch rule dailyCats totalDays
  else if ruleTypeOf rule = "mandatory" ∧ mandReqItem rule ≠ "" then
    mandatoryItemBranch rule dailyCats totalDays
  else unknownBranch rule itemCounter

/-- The flattened lowercased item list of `_evaluate_rules`. -/
def allItemsFlat (daysData : List MenuDayData) : List String :=
  cmap (fun day => cmap (fun ci => ci.2.map pyLower) day.items) daysData

/-- The `daily_categories` view of `_evaluate_rules`. -/
def dailyCatsOf (daysData : List MenuDayData) : List DailyCat :=
  daysData.map (fun day =>
    { date := day.date, dayOfWeek := day.dayOfWeek,
      categories := day.items.map (fun ci => ci.1),
      items := cmap (fun ci => ci.2.map (fun it => (ci.1, it))) day.items })

/-- Mirrors `_evaluate_rules`: one result per rule, in order. -/
def evaluateRules (rules : List ComplianceRuleData) (daysData : List MenuDayData) :
    List CheckResultData :=
  rules.map (fun r =>
    checkSingleRule r (dailyCatsOf daysData) (counterOf (allItemsFlat daysData))
      daysData.length)

/-- Comparison-label consistency of one result: the label is `above` /
`under` / `even` exactly according to the stored actual and expected
counts. -/
def cmpOK (r : CheckResultData) : Prop :=
  (r.evidence.comparison = "above" ↔ r.evidence.expectedCount < r.evidence.actualCount) ∧
    (r.evidence.comparison = "under" ↔ r.evidence.actualCount < r.evidence.expectedCount) ∧
    (r.evidence.comparison = "even" ↔ r.evidence.actualCount = r.evidence.expectedCount)

/-- The C3 scenario data: a 20-day month in which the item `נקניקיות`
appears six times (once on each of the first six days). -/
def c3Days : List MenuDayData :=
  (List.range 20).map (fun i =>
    { date := "2026-02-" ++ (if i + 1 < 10 then "0" else "") ++ toString (i + 1),
      dayOfWeek := "",
      items := [("עיקרית", [if i < 6 then "נקניקיות" else "סלט ירקות"])] })

/-- The C3 rule exactly as the claim names it: the `מקסימום פעם בשבוע`
marker precedes the item. -/
def c3Rule : ComplianceRuleData :=
  { name := "מקסימום פעם בשבוע נקניקיות", ruleType := "item_frequency_weekly",
    category := "בשר", priority := 1, params := {} }

/-- The same policy in the word order the extractor supports (the item
phrase first, as in the source's own docstring examples). -/
def c3RuleAmended : ComplianceRuleData :=
  { name := "נקניקיות מקסימום פעם בשבוע", ruleType := "item_frequency_weekly",
    category := "בשר", priority := 1, params := {} }

/-- The C4 counterexample data: two days, with four matching items on the
first day and none on the second. -/
def c4Days : List MenuDayData :=
  [{ date := "2026-02-02", dayOfWeek := "Monday",
     items := [("עיקרית", ["בשר טחון", "בשר בקר", "צלי בשר", "המבורגר בשר"])] },
   { date := "2026-02-03", dayOfWeek := "Tuesday",
     items := [("עיקרית", ["סלט ירקות"])] }]

/-- A `count_max` rule: at most one portion of `בשר` per day. -/
def c4Rule : ComplianceRuleData :=
  { name := "מקסימום 1 מנות בשר ביום", ruleType := "count_max",
    category := "בשר", priority := 1, params := {} }

/-- The English weekday names indexed by Python `weekday()`. -/
def dayNames : List String :=
  ["Monday", "Tuesday", "Wednesday", "Thursday", "Friday", "Saturday", "Sunday"]

/-- Two-digit zero padding of `date.isoformat`. -/
def pad2 (n : Nat) : String := (if n < 10 then "0" else "") ++ toString n

/-- Four-digit year padding of `date.isoformat`. -/
def pad4 (n : Nat) : String :=
  (if n < 10 then "000" else if n < 100 then "00" else if n < 1000 then "0" else "") ++
    toString n

/-- Mirrors `date.isoformat()`. -/
def isoDate (y m d : Nat) : String := pad4 y ++ "-" ++ pad2 m ++ "-" ++ pad2 d

/-- Mirrors `_generate_placeholder_days`: one entry per Monday-to-Friday day of the
month, dated in ISO format, with an empty item map.  The source walks
`date(year, month, 1)` up to the first of the next month; here the walk is
the list of day numbers `1 … monthLen`.  The month-string parsing
(`int(month.split("-")[-1])`) is abstracted as the already-parsed month
number. -/
def genPlaceholderDays (monthNum y : Nat) : List MenuDayData :=
  (List.range (monthLen y monthNum)).filterMap (fun i =>
    let d := i + 1
    let wd := weekdayOf y monthNum d
    if wd < 5 then
      some { date := isoDate y monthNum d, dayOfWeek := dayNames.getD wd "", items := [] }
    else none)

/-- Total item count of an AI parse response
(`sum(len(items) for day in result for items in day["items"].values())`). -/
def totalItemsOf (days : List MenuDayData) : Nat :=
  natSum (days.map (fun day => natSum (day.items.map (fun ci => ci.2.length))))

/-- Mirrors `_build_days_from_direct_extraction`.  The two file reads it performs —
the flat dish extraction and the Excel column detection — are inputs here:
`fileDishes` is what `extract_all_dishes_from_file` returned and
`excelStructured` what `_extract_days_from_excel_columns` returned (`none`
for a non-spreadsheet file). -/
def buildDaysFromDirectExtraction (fileDishes : List String)
    (excelStructured : Option (List MenuDayData)) (monthNum y : Nat) : List MenuDayData :=
  if fileDishes.isEmpty then genPlaceholderDays monthNum y
  else
    match excelStructured with
    | some st =>
      if !st.isEmpty && st.any (fun d => !d.items.isEmpty) then st
      else (genPlaceholderDays monthNum y).map
        (fun d => { d with items := [("עיקרית", fileDishes)] })
    | none =>
      (genPlaceholderDays monthNum y).map
        (fun d => { d with items := [("עיקרית", fileDishes)] })

/-- Mirrors `parse_menu_file`: tier 1 is the AI parse (`aiResult = none` models a
non-list response or a raised exception), accepted only when non-empty with
a positive total item count; otherwise the direct-extraction fallback. -/
def parseMenuFile (rawText : String) (aiResult : Option (List MenuDayData))
    (fileDishes : List String) (excelStructured : Option (List MenuDayData))
    (monthNum y : Nat) : List MenuDayData :=
  if pyStrip rawText = "" then genPlaceholderDays monthNum y
  else
    match aiResult with
    | some l =>
      if !l.isEmpty && 0 < totalItemsOf l then l
      else buildDaysFromDirectExtraction fileDishes excelStructured monthNum y
    | none => buildDaysFromDirectExtraction fileDishes excelStructured monthNum y

/-- A day-item name surviving the catalog filter: stripped, non-empty and
at least three characters (`if name and len(name) >= 3`). -/
def stripLen3 (s : String) : Option String :=
  let n := pyStrip s
  if n ≠ "" ∧ 3 ≤ n.length then some n else none

/-- Keep the first occurrence of each string. -/
def dedupKeepFirst : List String → List String
  | [] => []
  | s :: rest => s :: (dedupKeepFirst rest).filter (fun t => t ≠ s)

/-- Insert into a sorted list (Python `sorted` on strings). -/
def insSorted (s : String) : List String → List String
  | [] => [s]
  | t :: rest => if s ≤ t then s :: t :: rest else t :: insSorted s rest

/-- Sort a list of strings. -/
def sortStrs (l : List String) : List String := l.foldr insSorted []

/-- The unique dish names observed in a run: the whole-file direct
extraction (`fileDishes`) united with every day item that survives the
strip-and-length filter, as a sorted deduplicated list (the source's
`sorted(unique_dishes)` over a Python set). -/
def uniqueObserved (daysData : List MenuDayData) (fileDishes : List String) : List String :=
  sortStrs (dedupKeepFirst
    (fileDishes ++ cmap (fun day => cmap (fun ci => ci.2.filterMap stripLen3) day.items)
      daysData))

/-- The lowercased keywords of the passing results:
`evidence.get("item_searched") or evidence.get("category_keyword", "")`,
kept when non-empty. -/
def approvedKeywords (results : List CheckResultData) : List String :=
  results.filterMap (fun cr =>
    if cr.passed then
      let item :=
        match cr.evidence.itemSearched with
        | some s => if s ≠ "" then s else cr.evidence.categoryKeyword.getD ""
        | none => cr.evidence.categoryKeyword.getD ""
      if item ≠ "" then some (pyLower item) else none
    else none)

/-- Mirrors `_auto_extract_dishes_to_catalog`, as the list of inserted
`(dish_name, approved)` rows: every observed name not already in the
catalog, approved when some passing keyword occurs in its lowercased name
(`any(kw in dish_name.lower() for kw in approved_keywords)`, false when no
keywords).  The loop's `existing_names.add` only guards against duplicates
within the already-deduplicated name list, so it has no further effect. -/
def autoExtractEntries (daysData : List MenuDayData) (results : List CheckResultData)
    (existing : List String) (fileDishes : List String) : List (String × Bool) :=
  ((uniqueObserved daysData fileDishes).filter (fun n => !existing.contains n)).map
    (fun n => (n, (approvedKeywords results).any (fun kw => hasSubStr kw (pyLower n))))

/-- The return value of `_auto_extract_dishes_to_catalog` (`new_count`). -/
def autoExtractCount (daysData : List MenuDayData) (results : List CheckResultData)
    (existing : List String) (fileDishes : List String) : Nat :=
  (autoExtractEntries daysData results existing fileDishes).length

/-- The catalog names after the writer ran: the writer only issues inserts
(`db.add`), never updates or deletes. -/
def catalogAfter (existing : List String) (entries : List (String × Bool)) : List String :=
  existing ++ entries.map (fun e => e.1)

/-- The single empty-items day of the spec's C7 scenario. -/
def c7ScenDay : MenuDayData := { date := "2026-02-01", dayOfWeek := "Sunday", items := [] }

/-- Mirrors `AI_MENU_PARSE_PROMPT` of the source, verbatim (braces written as hex
escapes). -/
def aiMenuParsePrompt : String :=
  "You are a menu parser for Israeli institutional catering.\n" ++
  "Parse the following raw menu text into structured JSON.\n" ++
  "\n" ++
  "The menu covers a month of daily meals at a corporate cafeteria in Israel.\n" ++
  "Each day should have categories like: עיקרית (main), תוספות (sides), סלטים (salads),\n" ++
  "מרק (soup), קינוח (dessert), לחם (bread), שתיה (drinks).\n" ++
  "\n" ++
  "Return ONLY a JSON array of day objects:\n" ++
  "[\n" ++
  "  \x7b\n" ++
  "    \"date\": \"YYYY-MM-DD\",\n" ++
  "    \"day_of_week\": \"Sunday|Monday|Tuesday|Wednesday|Thursday\",\n" ++
  "    \"items\": \x7b\n" ++
  "      \"category_name\": [\"item1\", \"item2\"]\n" ++
  "    \x7d\n" ++
  "  \x7d\n" ++
  "]\n" ++
  "\n" ++
  "If dates are not clear, generate weekdays (Sun-Thu) for the given month/year.\n" ++
  "If the text is unreadable or empty, return an empty array [].\n" ++
  "Do not include Fridays/Saturdays (Shabbat).\n"

/-- The aggregate counters of `run_compliance_check`. -/
structure CheckTotals where
  critical : Nat
  warning : Nat
  passed : Nat
  above : Nat
  under : Nat
  even : Nat
deriving DecidableEq

/-- One iteration of the counting loop: a passed result increments
`passed`, a failed critical one `critical`, any other failure `warning`;
independently the comparison label feeds exactly one variance bucket. -/
def tallyResult (t : CheckTotals) (cr : CheckResultData) : CheckTotals :=
  let t1 :=
    if cr.passed then { t with passed := t.passed + 1 }
    else if cr.severity = "critical" then { t with critical := t.critical + 1 }
    else { t with warning := t.warning + 1 }
  if cr.evidence.comparison = "above" then { t1 with above := t1.above + 1 }
  else if cr.evidence.comparison = "under" then { t1 with under := t1.under + 1 }
  else { t1 with even := t1.even + 1 }

/-- The counting loop over all results. -/
def computeTotals (results : List CheckResultData) : CheckTotals :=
  results.foldl tallyResult ⟨0, 0, 0, 0, 0, 0⟩

/-- Mirrors `check.total_findings = critical_count + warning_count`. -/
def totalFindings (t : CheckTotals) : Nat := t.critical + t.warning

/-- Two Hebrew characters in particular mean some Hebrew character. -/
theorem any_hebrew_of_two (l : List Char) (h : 2 ≤ hebrewCount l) :
    l.any isHebrewChar = true := by
  unfold hebrewCount at h
  rw [List.any_eq_true]
  rcases hf : l.filter isHebrewChar with _ | ⟨c, rest⟩
  · rw [hf] at h; simp at h
  · have hc : c ∈ l.filter isHebrewChar := by rw [hf]; exact List.mem_cons_self c rest
    rw [List.mem_filter] at hc
    exact ⟨c, hc.1, hc.2⟩

/-- C5 counterexample: `"Noneאבג"` is 7 characters long, has three Hebrew
characters, is not the literal `None`, is not digits-only, is not a whole
date or weekday token, and contains no header keyword — under the claim's
whole-token reading it is a dish name — yet `_is_dish_name` rejects it,
because `_SKIP_PATTERNS` is applied with `re.match` and the string merely
*begins* with `None`. -/
theorem c5_counterexample :
    isDishName "Noneאבג" = false ∧ claimedDishName "Noneאבג" = true := by
  decide

/-- C5 (amended): `_is_dish_name` accepts exactly the strings of length 3
to 80 with at least two Hebrew-block characters, no header keyword in the
lowercased string, and no prefix-anchored skip-pattern match. -/
theorem c5_dish_classifier (s : String) : isDishName s = amendedDishName s := by
  unfold isDishName amendedDishName
  by_cases h3 : s.length < 3
  · have h3' : ¬ 3 ≤ s.length := by omega
    simp [h3, h3']
  · by_cases h80 : s.length > 80
    · have h80' : ¬ s.length ≤ 80 := by omega
      simp [h3, h80, h80']
    · have e3 : 3 ≤ s.length := by omega
      have e80 : s.length ≤ 80 := by omega
      by_cases hheb : 2 ≤ hebrewCount s.data
      · have hany := any_hebrew_of_two _ hheb
        have hlt : ¬ hebrewCount s.data < 2 := by omega
        simp [h3, h80, e3, e80, hheb, hany, hlt]
        rcases Bool.eq_false_or_eq_true (skipMatch s.data) with hc | hc <;>
          rcases Bool.eq_false_or_eq_true
              (headerKeywords.any (fun kw => hasSubStr kw (pyLower s))) with hd | hd <;>
            simp [hc, hd] <;>
              first
                | exact List.any_eq_true.mp hd
                | (intro x hx
                   have hfx := List.any_eq_false.mp hd x hx
                   simpa using hfx)
      · have hlt : hebrewCount s.data < 2 := by omega
        simp [h3, h80, hheb, hlt]

/-- The label of `_derive_comparison` follows the trichotomy faithfully. -/
theorem deriveComparison_spec (a e : Int) :
    (deriveComparison a e = "above" ↔ e < a) ∧
      (deriveComparison a e = "under" ↔ a < e) ∧
      (deriveComparison a e = "even" ↔ a = e) := by
  rcases lt_trichotomy a e with h | h | h
  · rw [show deriveComparison a e = "under" by unfold deriveComparison; rw [if_neg (by omega), if_pos h]]
    exact ⟨iff_of_false (by decide) (by omega), iff_of_true rfl h,
      iff_of_false (by decide) (by omega)⟩
  · rw [show deriveComparison a e = "even" by unfold deriveComparison; rw [if_neg (by omega), if_neg (by omega)]]
    exact ⟨iff_of_false (by decide) (by omega), iff_of_false (by decide) (by omega),
      iff_of_true rfl h⟩
  · rw [show deriveComparison a e = "above" by unfold deriveComparison; rw [if_pos h]]
    exact ⟨iff_of_true rfl h, iff_of_false (by decide) (by omega),
      iff_of_false (by decide) (by omega)⟩

/-- A result whose label is derived from its own stored counts is
consistent. -/
theorem cmpOK_of_eq (r : CheckResultData)
    (h : r.evidence.comparison =
      deriveComparison r.evidence.actualCount r.evidence.expectedCount) : cmpOK r := by
  unfold cmpOK
  rw [h]
  exact deriveComparison_spec _ _

theorem cmpOK_zero (rule : ComplianceRuleData) : cmpOK (zeroDaysResult rule) :=
  cmpOK_of_eq _ rfl

theorem cmpOK_ifw (rule : ComplianceRuleData) (dcs : List DailyCat)
    (counter : List (String × Nat)) (td : Nat) : cmpOK (ifwBranch rule dcs counter td) :=
  cmpOK_of_eq _ rfl

theorem cmpOK_ifm (rule : ComplianceRuleData) (dcs : List DailyCat)
    (counter : List (String × Nat)) : cmpOK (ifmBranch rule dcs counter) :=
  cmpOK_of_eq _ rfl

theorem cmpOK_countMinVariety (rule : ComplianceRuleData) (dcs : List DailyCat) :
    cmpOK (countMinVarietyBranch rule dcs) :=
  cmpOK_of_eq _ rfl

theorem cmpOK_presence (rule : ComplianceRuleData) (ik : String) (dcs : List DailyCat)
    (td : Nat) : cmpOK (presenceResult rule ik dcs td) :=
  cmpOK_of_eq _ rfl

theorem cmpOK_countMin (rule : ComplianceRuleData) (dcs : List DailyCat) (td : Nat) :
    cmpOK (countMinBranch rule dcs td) := by
  unfold countMinBranch
  split
  · exact cmpOK_countMinVariety _ _
  · exact cmpOK_presence _ _ _ _

theorem cmpOK_countMax (rule : ComplianceRuleData) (dcs : List DailyCat) :
    cmpOK (countMaxBranch rule dcs) :=
  cmpOK_of_eq _ rfl

theorem cmpOK_itemPresent (rule : ComplianceRuleData) (dcs : List DailyCat) (td : Nat) :
    cmpOK (itemPresentBranch rule dcs td) :=
  cmpOK_presence _ _ _ _

theorem cmpOK_repeats (rule : ComplianceRuleData) (repeats : Nat) (a b : String) :
    cmpOK (repeatsResult rule repeats a b) :=
  cmpOK_of_eq _ rfl

theorem cmpOK_frequency (rule : ComplianceRuleData) (counter : List (String × Nat))
    (td : Nat) : cmpOK (frequencyBranch rule counter td) := by
  unfold frequencyBranch
  dsimp only
  split
  · exact cmpOK_of_eq _ rfl
  · split
    · exact cmpOK_of_eq _ rfl
    · split
      · exact cmpOK_of_eq _ rfl
      · exact cmpOK_of_eq _ rfl

theorem cmpOK_mandatoryCat (rule : ComplianceRuleData) (dcs : List DailyCat) (td : Nat) :
    cmpOK (mandatoryCatBranch rule dcs td) := by
  unfold mandatoryCatBranch
  dsimp only
  split
  · exact cmpOK_of_eq _ rfl
  · exact cmpOK_of_eq _ rfl

theorem cmpOK_mandatoryItem (rule : ComplianceRuleData) (dcs : List DailyCat) (td : Nat) :
    cmpOK (mandatoryItemBranch rule dcs td) := by
  unfold mandatoryItemBranch
  dsimp only
  split
  · rename_i h
    exact cmpOK_of_eq _ (by rw [h])
  · exact cmpOK_of_eq _ rfl

theorem cmpOK_unknown (rule : ComplianceRuleData) (counter : List (String × Nat)) :
    cmpOK (unknownBranch rule counter) := by
  unfold unknownBranch
  dsimp only
  split
  · exact cmpOK_of_eq _ rfl
  · exact cmpOK_of_eq _ rfl

/-- Every branch of `_check_single_rule` labels consistently. -/
theorem cmpOK_checkSingleRule (rule : ComplianceRuleData) (dcs : List DailyCat)
    (counter : List (String × Nat)) (td : Nat) :
    cmpOK (checkSingleRule rule dcs counter td) := by
  unfold checkSingleRule
  by_cases h0 : td = 0
  · rw [if_pos h0]
    exact cmpOK_zero _
  · rw [if_neg h0]
    by_cases h1 : ruleTypeOf rule = "item_frequency_weekly"
    · rw [if_pos h1]
      exact cmpOK_ifw _ _ _ _
    · rw [if_neg h1]
      by_cases h2 : ruleTypeOf rule = "item_frequency_monthly"
      · rw [if_pos h2]
        exact cmpOK_ifm _ _ _
      · rw [if_neg h2]
        by_cases h3 : ruleTypeOf rule = "count_min"
        · rw [if_pos h3]
          exact cmpOK_countMin _ _ _
        · rw [if_neg h3]
          by_cases h4 : ruleTypeOf rule = "count_max"
          · rw [if_pos h4]
            exact cmpOK_countMax _ _
          · rw [if_neg h4]
            by_cases h5 : ruleTypeOf rule = "item_present"
            · rw [if_pos h5]
              exact cmpOK_itemPresent _ _ _
            · rw [if_neg h5]
              by_cases h6 : ruleTypeOf rule = "no_repeat_weekly"
              · rw [if_pos h6]
                exact cmpOK_repeats _ _ _ _
              · rw [if_neg h6]
                by_cases h7 : ruleTypeOf rule = "no_repeat_daily"
                · rw [if_pos h7]
                  exact cmpOK_repeats _ _ _ _
                · rw [if_neg h7]
                  by_cases h8 : ruleTypeOf rule = "no_consecutive"
                  · rw [if_pos h8]
                    exact cmpOK_repeats _ _ _ _
                  · rw [if_neg h8]
                    by_cases h9 : ruleTypeOf rule = "frequency"
                    · rw [if_pos h9]
                      exact cmpOK_frequency _ _ _
                    · rw [if_neg h9]
                      by_cases h10 : ruleTypeOf rule = "mandatory" ∧ mandReqCat rule ≠ ""
                      · rw [if_pos h10]
                        exact cmpOK_mandatoryCat _ _ _
                      · rw [if_neg h10]
                        by_cases h11 : ruleTypeOf rule = "mandatory" ∧ mandReqItem rule ≠ ""
                        · rw [if_pos h11]
                          exact cmpOK_mandatoryItem _ _ _
                        · rw [if_neg h11]
                          exact cmpOK_unknown _ _

/-- C1: for every rule evaluation, `comparison` is exactly `"above"` when
the stored `actual_count` exceeds `expected_count`, `"under"` when it is
smaller, and `"even"` when they are equal — and no other value occurs,
since the three biconditionals cover the trichotomy. -/
theorem c1_comparison_labels (rule : ComplianceRuleData) (dcs : List DailyCat)
    (counter : List (String × Nat)) (td : Nat) :
    (((checkSingleRule rule dcs counter td).evidence.comparison = "above") ↔
        (checkSingleRule rule dcs counter td).evidence.expectedCount <
          (checkSingleRule rule dcs counter td).evidence.actualCount) ∧
      (((checkSingleRule rule dcs counter td).evidence.comparison = "under") ↔
        (checkSingleRule rule dcs counter td).evidence.actualCount <
          (checkSingleRule rule dcs counter td).evidence.expectedCount) ∧
      (((checkSingleRule rule dcs counter td).evidence.comparison = "even") ↔
        (checkSingleRule rule dcs counter td).evidence.actualCount =
          (checkSingleRule rule dcs counter td).evidence.expectedCount) :=
  cmpOK_checkSingleRule rule dcs counter td

/-- C2: with zero parsed days every rule gets the failing no-data result:
`passed = false`, zero expected and actual counts, comparison `"even"`,
and the dedicated finding text. -/
theorem c2_zero_days (rule : ComplianceRuleData) (dcs : List DailyCat)
    (counter : List (String × Nat)) :
    (checkSingleRule rule dcs counter 0).passed = false ∧
      (checkSingleRule rule dcs counter 0).evidence.expectedCount = 0 ∧
      (checkSingleRule rule dcs counter 0).evidence.actualCount = 0 ∧
      (checkSingleRule rule dcs counter 0).evidence.comparison = "even" ∧
      (checkSingleRule rule dcs counter 0).findingText =
        some "No menu days found to check against this rule." ∧
      (checkSingleRule rule dcs counter 0).evidence.daysChecked = some 0 :=
  ⟨rfl, rfl, rfl, rfl, rfl, rfl⟩

/-- C3 counterexample: with the rule name of the claim, neither of the
name patterns `<phrase> N פעמ…` / `<phrase> פעם ב…` matches (the item
follows the frequency words), so the item keyword degrades to the whole
cleaned name `"פעם בשבוע נקניקיות"`, which no dish contains: the evaluation
returns actual = 0, comparison `"under"`, and passes — not the claimed
actual = 6, `"above"`, failed. -/
theorem c3_counterexample :
    (checkSingleRule c3Rule (dailyCatsOf c3Days) (counterOf (allItemsFlat c3Days))
        c3Days.length).passed = true ∧
      (checkSingleRule c3Rule (dailyCatsOf c3Days) (counterOf (allItemsFlat c3Days))
          c3Days.length).evidence.expectedCount = 4 ∧
      (checkSingleRule c3Rule (dailyCatsOf c3Days) (counterOf (allItemsFlat c3Days))
          c3Days.length).evidence.actualCount = 0 ∧
      (checkSingleRule c3Rule (dailyCatsOf c3Days) (counterOf (allItemsFlat c3Days))
          c3Days.length).evidence.comparison = "under" := by
  decide

/-- C3 (amended): for the extractor-supported name
`"נקניקיות מקסימום פעם בשבוע"` over the same 20 days with six occurrences,
the result is expected = round(1 × (20/5)) = 4, actual = 6, comparison
`"above"`, and the rule fails because the direction is at-most. -/
theorem c3_weekly_max_scenario :
    (checkSingleRule c3RuleAmended (dailyCatsOf c3Days) (counterOf (allItemsFlat c3Days))
        c3Days.length).passed = false ∧
      (checkSingleRule c3RuleAmended (dailyCatsOf c3Days) (counterOf (allItemsFlat c3Days))
          c3Days.length).evidence.expectedCount = 4 ∧
      (checkSingleRule c3RuleAmended (dailyCatsOf c3Days) (counterOf (allItemsFlat c3Days))
          c3Days.length).evidence.actualCount = 6 ∧
      (checkSingleRule c3RuleAmended (dailyCatsOf c3Days) (counterOf (allItemsFlat c3Days))
          c3Days.length).evidence.comparison = "above" := by
  decide

/-- C4 counterexample: the peak single-day count is 4 (stored under
`max_daily_found`, and `passed` is correctly false since 4 > 1), but the
evidence `actual_count` is 2 — the rounded *average* daily count
(4 + 0) / 2 — not the peak as the claim states. -/
theorem c4_counterexample :
    (checkSingleRule c4Rule (dailyCatsOf c4Days) (counterOf (allItemsFlat c4Days))
        c4Days.length).evidence.actualCount = 2 ∧
      (checkSingleRule c4Rule (dailyCatsOf c4Days) (counterOf (allItemsFlat c4Days))
          c4Days.length).evidence.maxDailyFound = some 4 ∧
      (checkSingleRule c4Rule (dailyCatsOf c4Days) (counterOf (allItemsFlat c4Days))
          c4Days.length).passed = false := by
  decide

/-- C4 (amended): for every `count_max` rule over a non-empty day list,
`expected_count` is the parsed maximum N, `passed` holds exactly when the
peak single-day count of item-keyword matches is at most N, the peak itself
is stored in evidence `max_daily_found`, and `actual_count` is the rounded
average daily count (not the peak). -/
theorem c4_count_max_semantics (rule : ComplianceRuleData) (dcs : List DailyCat)
    (counter : List (String × Nat)) (td : Nat)
    (hty : rule.ruleType = "count_max") (htd : td ≠ 0) :
    let kw := if strTruthy rule.params.item then rule.params.item.getD ""
              else (extractDailyCount rule.name).2
    let counts := dcs.map (countMaxDayCount kw)
    let peak := counts.foldl max 0
    ((checkSingleRule rule dcs counter td).evidence.expectedCount =
        ((extractDailyCount rule.name).1 : Int)) ∧
      ((checkSingleRule rule dcs counter td).passed = true ↔
        peak ≤ (extractDailyCount rule.name).1) ∧
      ((checkSingleRule rule dcs counter td).evidence.maxDailyFound =
        some (peak : Int)) ∧
      ((checkSingleRule rule dcs counter td).evidence.actualCount =
        pyRound (pyRound1 (mkFrac (natSum counts) (max counts.length 1)))) := by
  intro kw counts peak
  have hrt : ruleTypeOf rule = "count_max" := by
    unfold ruleTypeOf
    rw [hty]
    decide
  unfold checkSingleRule
  rw [if_neg htd, hrt,
    if_neg (show ¬("count_max" : String) = "item_frequency_weekly" by decide),
    if_neg (show ¬("count_max" : String) = "item_frequency_monthly" by decide),
    if_neg (show ¬("count_max" : String) = "count_min" by decide),
    if_pos rfl]
  exact ⟨rfl, decide_eq_true_iff, rfl, rfl⟩

/-- C4 witness: the amended semantics at the concrete two-day scenario. -/
theorem c4_count_max_semantics_witness :
    c4Rule.ruleType = "count_max" ∧ c4Days.length ≠ 0 ∧
      (let kw := if strTruthy c4Rule.params.item then c4Rule.params.item.getD ""
                 else (extractDailyCount c4Rule.name).2
       let counts := (dailyCatsOf c4Days).map (countMaxDayCount kw)
       let peak := counts.foldl max 0
       ((checkSingleRule c4Rule (dailyCatsOf c4Days) (counterOf (allItemsFlat c4Days))
           c4Days.length).evidence.expectedCount =
          ((extractDailyCount c4Rule.name).1 : Int)) ∧
        ((checkSingleRule c4Rule (dailyCatsOf c4Days) (counterOf (allItemsFlat c4Days))
            c4Days.length).passed = true ↔
          peak ≤ (extractDailyCount c4Rule.name).1) ∧
        ((checkSingleRule c4Rule (dailyCatsOf c4Days) (counterOf (allItemsFlat c4Days))
            c4Days.length).evidence.maxDailyFound = some (peak : Int)) ∧
        ((checkSingleRule c4Rule (dailyCatsOf c4Days) (counterOf (allItemsFlat c4Days))
            c4Days.length).evidence.actualCount =
          pyRound (pyRound1 (mkFrac (natSum counts) (max counts.length 1))))) :=
  ⟨rfl, by decide,
    c4_count_max_semantics c4Rule (dailyCatsOf c4Days) (counterOf (allItemsFlat c4Days))
      c4Days.length rfl (by decide)⟩

/-- A `filterMap` of a guarded `some` is a `filter` followed by a `map`. -/
theorem filterMap_dite {α β : Type} (p : α → Prop) [DecidablePred p] (f : α → β) :
    ∀ l : List α,
      l.filterMap (fun a => if p a then some (f a) else none) =
        (l.filter (fun a => decide (p a))).map f := by
  intro l
  induction l with
  | nil => rfl
  | cons a rest ih =>
    by_cases h : p a
    · simp [List.filterMap_cons, List.filter_cons, h, ih]
    · simp [List.filterMap_cons, List.filter_cons, h, ih]

/-- Normal form of the placeholder generator: the qualifying day numbers,
mapped to their day records. -/
theorem gpd_eq (m y : Nat) :
    genPlaceholderDays m y =
      ((List.range (monthLen y m)).filter
          (fun i => decide (weekdayOf y m (i + 1) < 5))).map
        (fun i =>
          { date := isoDate y m (i + 1),
            dayOfWeek := dayNames.getD (weekdayOf y m (i + 1)) "",
            items := [] }) :=
  filterMap_dite _ _ _

/-- Every placeholder day has an empty item map and a Monday-to-Friday
weekday label. -/
theorem gpd_mem (m y : Nat) : ∀ day ∈ genPlaceholderDays m y,
    day.items = [] ∧
      day.dayOfWeek ∈ (["Monday", "Tuesday", "Wednesday", "Thursday", "Friday"] :
        List String) := by
  intro day hday
  rw [gpd_eq] at hday
  obtain ⟨i, hi, rfl⟩ := List.mem_map.mp hday
  rw [List.mem_filter] at hi
  have hw : weekdayOf y m (i + 1) < 5 := of_decide_eq_true hi.2
  refine ⟨rfl, ?_⟩
  show dayNames.getD (weekdayOf y m (i + 1)) "" ∈ _
  generalize weekdayOf y m (i + 1) = wd at hw ⊢
  interval_cases wd <;> decide

/-- A concatenating map over entries that all yield nothing is empty. -/
theorem cmap_nil_of (f : α → List β) (l : List α) (h : ∀ a ∈ l, f a = []) :
    cmap f l = [] := by
  induction l with
  | nil => rfl
  | cons a rest ih =>
    show f a ++ cmap f rest = []
    rw [h a (List.mem_cons_self a rest),
      ih (fun b hb => h b (List.mem_cons_of_mem a hb))]
    rfl

/-- With no file dishes and all-empty day items, the catalog writer inserts
nothing. -/
theorem autoExtract_empty (days : List MenuDayData) (results : List CheckResultData)
    (existing : List String) (h : ∀ d ∈ days, d.items = []) :
    autoExtractCount days results existing [] = 0 := by
  unfold autoExtractCount autoExtractEntries uniqueObserved
  rw [cmap_nil_of _ _ (fun d hd => by rw [h d hd]; rfl)]
  rfl

/-- C6: for a file from which no raw text could be read (empty raw text,
and nothing extractable for the catalog), `parse_menu_file` returns — for
any AI-response placeholder — exactly the Monday-to-Friday placeholder
days of the target month: one entry per qualifying day, every entry with an
empty item map and a weekday label, and the catalog writer inserts zero new
dishes for the run. -/
theorem c6_unreadable_file (m y : Nat) (ai : Option (List MenuDayData))
    (results : List CheckResultData) (existing : List String)
    (hm1 : 1 ≤ m) (hm2 : m ≤ 12) :
    parseMenuFile "" ai [] none m y = genPlaceholderDays m y ∧
      (genPlaceholderDays m y).all (fun day =>
        day.items.isEmpty &&
          decide (day.dayOfWeek ∈
            (["Monday", "Tuesday", "Wednesday", "Thursday", "Friday"] :
              List String))) = true ∧
      ((List.range (monthLen y m)).filter
          (fun i => decide (weekdayOf y m (i + 1) < 5))).all
        (fun i => decide (isoDate y m (i + 1) ∈
          (genPlaceholderDays m y).map (fun d => d.date))) = true ∧
      (genPlaceholderDays m y).length =
        ((List.range (monthLen y m)).filter
          (fun i => decide (weekdayOf y m (i + 1) < 5))).length ∧
      autoExtractCount (genPlaceholderDays m y) results existing [] = 0 := by
  refine ⟨?_, ?_, ?_, ?_, ?_⟩
  · rfl
  · rw [List.all_eq_true]
    intro day hday
    obtain ⟨h1, h2⟩ := gpd_mem m y day hday
    rw [h1]
    simp [h2]
  · rw [List.all_eq_true]
    intro i hi
    apply decide_eq_true
    rw [gpd_eq, List.map_map]
    exact List.mem_map.mpr ⟨i, hi, rfl⟩
  · rw [gpd_eq, List.length_map]
  · exact autoExtract_empty _ results existing (fun d hd => (gpd_mem m y d hd).1)

/-- C6 witness: February 2026 (a 20-weekday month) with a failed AI call,
no extractable dishes, no prior results and an empty catalog. -/
theorem c6_unreadable_file_witness :
    (1 ≤ 2 ∧ 2 ≤ 12) ∧
      (parseMenuFile "" none [] none 2 2026 = genPlaceholderDays 2 2026 ∧
        (genPlaceholderDays 2 2026).all (fun day =>
          day.items.isEmpty &&
            decide (day.dayOfWeek ∈
              (["Monday", "Tuesday", "Wednesday", "Thursday", "Friday"] :
                List String))) = true ∧
        ((List.range (monthLen 2026 2)).filter
            (fun i => decide (weekdayOf 2026 2 (i + 1) < 5))).all
          (fun i => decide (isoDate 2026 2 (i + 1) ∈
            (genPlaceholderDays 2 2026).map (fun d => d.date))) = true ∧
        (genPlaceholderDays 2 2026).length =
          ((List.range (monthLen 2026 2)).filter
            (fun i => decide (weekdayOf 2026 2 (i + 1) < 5))).length ∧
        autoExtractCount (genPlaceholderDays 2 2026) [] [] [] = 0) :=
  ⟨⟨by decide, by decide⟩,
    c6_unreadable_file 2 2026 none [] [] (by decide) (by decide)⟩

/-- C7: a structurally valid but semantically empty AI response — a
non-empty day array whose total item count is zero — is discarded and the
pipeline proceeds with the direct-extraction fallback; no exception
surfaces (the function is total). -/
theorem c7_empty_ai_discarded (rawText : String) (l : List MenuDayData)
    (fileDishes : List String) (excel : Option (List MenuDayData)) (m y : Nat)
    (hraw : pyStrip rawText ≠ "") (hne : l ≠ []) (hz : totalItemsOf l = 0) :
    parseMenuFile rawText (some l) fileDishes excel m y =
      buildDaysFromDirectExtraction fileDishes excel m y := by
  unfold parseMenuFile
  rw [if_neg hraw]
  simp [hz]

/-- C7 witness: at the concrete scenario
`[{"date":"2026-02-01","day_of_week":"Sunday","items":{}}]` the pipeline
falls through to the fallback tiers, and the final output is not the AI
response. -/
theorem c7_empty_ai_discarded_witness :
    pyStrip "x" ≠ "" ∧ [c7ScenDay] ≠ ([] : List MenuDayData) ∧
      totalItemsOf [c7ScenDay] = 0 ∧
      parseMenuFile "x" (some [c7ScenDay]) [] none 2 2026 =
        buildDaysFromDirectExtraction [] none 2 2026 ∧
      parseMenuFile "x" (some [c7ScenDay]) [] none 2 2026 ≠ [c7ScenDay] :=
  ⟨by decide, by decide, rfl,
    c7_empty_ai_discarded "x" [c7ScenDay] [] none 2 2026 (by decide) (by decide) rfl,
    by decide⟩

set_option maxRecDepth 20000 in
/-- C10: the placeholder fallback generates only Monday-to-Friday labelled
days (Python `weekday() < 5`), while the AI parsing prompt instructs the
external service to emit Sunday-to-Thursday days and to exclude
Fridays/Saturdays — two different 5-day subsets of the week (`Friday` is in
the placeholder subset but not the prompt's; `Sunday` conversely). -/
theorem c10_weekday_subsets :
    (∀ m y : Nat, (genPlaceholderDays m y).all (fun day =>
      decide (day.dayOfWeek ∈
        (["Monday", "Tuesday", "Wednesday", "Thursday", "Friday"] :
          List String))) = true) ∧
      hasSubStr "\"Sunday|Monday|Tuesday|Wednesday|Thursday\"" aiMenuParsePrompt = true ∧
      hasSubStr "Do not include Fridays/Saturdays" aiMenuParsePrompt = true ∧
      (["Monday", "Tuesday", "Wednesday", "Thursday", "Friday"] : List String) ≠
        ["Sunday", "Monday", "Tuesday", "Wednesday", "Thursday"] ∧
      "Friday" ∈ (["Monday", "Tuesday", "Wednesday", "Thursday", "Friday"] : List String) ∧
      "Friday" ∉ (["Sunday", "Monday", "Tuesday", "Wednesday", "Thursday"] : List String) ∧
      "Sunday" ∈ (["Sunday", "Monday", "Tuesday", "Wednesday", "Thursday"] : List String) ∧
      "Sunday" ∉ (["Monday", "Tuesday", "Wednesday", "Thursday", "Friday"] : List String) := by
  refine ⟨?_, by decide, by decide, by decide, by decide, by decide, by decide, by decide⟩
  intro m y
  rw [List.all_eq_true]
  intro day hday
  exact decide_eq_true (gpd_mem m y day hday).2

theorem tallyResult_passed (t : CheckTotals) (cr : CheckResultData) :
    (tallyResult t cr).passed = t.passed + (if cr.passed then 1 else 0) := by
  unfold tallyResult
  split_ifs <;> simp

theorem tallyResult_failed (t : CheckTotals) (cr : CheckResultData) :
    (tallyResult t cr).critical + (tallyResult t cr).warning =
      t.critical + t.warning + (if cr.passed then 0 else 1) := by
  unfold tallyResult
  split_ifs <;> simp <;> omega

/-- The loop counts passes and failures exactly. -/
theorem computeTotals_counts (results : List CheckResultData) : ∀ t : CheckTotals,
    (results.foldl tallyResult t).passed =
        t.passed + (results.filter (fun r => r.passed)).length ∧
      (results.foldl tallyResult t).critical + (results.foldl tallyResult t).warning =
        t.critical + t.warning + (results.filter (fun r => !r.passed)).length := by
  induction results with
  | nil => intro t; simp
  | cons cr rest ih =>
    intro t
    rw [List.foldl_cons]
    rcases ih (tallyResult t cr) with ⟨h1, h2⟩
    constructor
    · rw [h1, tallyResult_passed, List.filter_cons]
      cases hcp : cr.passed <;> simp [hcp] <;> omega
    · rw [h2, tallyResult_failed, List.filter_cons]
      cases hcp : cr.passed <;> simp [hcp] <;> omega

/-- Filtering on a boolean and its negation splits the length. -/
theorem filter_tf_len (l : List CheckResultData) :
    (l.filter (fun r => r.passed)).length + (l.filter (fun r => !r.passed)).length =
      l.length := by
  induction l with
  | nil => rfl
  | cons cr rest ih =>
    rw [List.filter_cons, List.filter_cons]
    cases hcp : cr.passed <;> simp [hcp] <;> omega

/-- C9: after a run, `total_findings = critical + warnings`, the passed
count is the number of passing results, critical + warning count exactly
the failing ones (so every passed result is excluded from
`total_findings`), and passed + total_findings equals the number of rules
evaluated — each rule contributing exactly one result and each result
incrementing exactly one counter. -/
theorem c9_totals (rules : List ComplianceRuleData) (days : List MenuDayData) :
    totalFindings (computeTotals (evaluateRules rules days)) =
        (computeTotals (evaluateRules rules days)).critical +
          (computeTotals (evaluateRules rules days)).warning ∧
      (computeTotals (evaluateRules rules days)).passed =
        ((evaluateRules rules days).filter (fun r => r.passed)).length ∧
      (computeTotals (evaluateRules rules days)).critical +
          (computeTotals (evaluateRules rules days)).warning =
        ((evaluateRules rules days).filter (fun r => !r.passed)).length ∧
      (computeTotals (evaluateRules rules days)).passed +
          totalFindings (computeTotals (evaluateRules rules days)) = rules.length := by
  rcases computeTotals_counts (evaluateRules rules days) ⟨0, 0, 0, 0, 0, 0⟩ with ⟨h1, h2⟩
  have hlen : (evaluateRules rules days).length = rules.length := List.length_map _ _
  have h3 := filter_tf_len (evaluateRules rules days)
  refine ⟨rfl, ?_, ?_, ?_⟩
  · unfold computeTotals
    rw [h1]
    simp
  · unfold computeTotals
    rw [h2]
    simp
  · unfold totalFindings computeTotals
    rw [h1, h2]
    simp only [show (⟨0, 0, 0, 0, 0, 0⟩ : CheckTotals).passed = 0 from rfl,
      show (⟨0, 0, 0, 0, 0, 0⟩ : CheckTotals).critical = 0 from rfl,
      show (⟨0, 0, 0, 0, 0, 0⟩ : CheckTotals).warning = 0 from rfl]
    omega

/-- Membership gives a positive `contains`. -/
theorem contains_of_mem (l : List String) (a : String) (h : a ∈ l) :
    l.contains a = true := by
  induction l with
  | nil => cases h
  | cons b rest ih =>
    rcases List.mem_cons.mp h with rfl | h2
    · simp [List.contains_cons]
    · simp only [List.contains_cons, Bool.or_eq_true]
      exact Or.inr (ih h2)

/-- C8: every row the catalog writer inserts is a dish name not already in
the catalog, and its approval flag is exactly "some passing rule's
lowercased keyword occurs in the lowercased name" (so with no passing
rule — no keywords — every new entry is unapproved); every observed dish
name missing from the catalog is inserted; and the catalog after the run is
the old catalog plus the insertions — existing entries are never modified
or removed. -/
theorem c8_catalog_writer (days : List MenuDayData) (results : List CheckResultData)
    (existing : List String) (fileDishes : List String) :
    (autoExtractEntries days results existing fileDishes).all (fun e =>
        !(existing.contains e.1) &&
          (e.2 == (approvedKeywords results).any
            (fun kw => hasSubStr kw (pyLower e.1)))) = true ∧
      ((uniqueObserved days fileDishes).filter (fun n => !existing.contains n)).all
        (fun n => ((autoExtractEntries days results existing fileDishes).map
          (fun e => e.1)).contains n) = true ∧
      catalogAfter existing (autoExtractEntries days results existing fileDishes) =
        existing ++ (autoExtractEntries days results existing fileDishes).map
          (fun e => e.1) := by
  refine ⟨?_, ?_, rfl⟩
  · rw [List.all_eq_true]
    intro e he
    unfold autoExtractEntries at he
    obtain ⟨n, hn, rfl⟩ := List.mem_map.mp he
    rw [List.mem_filter] at hn
    have h2 := hn.2
    simp only [Bool.not_eq_true] at h2
    simp at h2
    simp [h2]
  · rw [List.all_eq_true]
    intro n hn
    apply contains_of_mem
    unfold autoExtractEntries
    rw [List.map_map]
    exact List.mem_map.mpr ⟨n, hn, rfl⟩
